import Mathlib

/-!
Verification of the Estadio-do-Dragao Stadium-Event-Generator simulator.

The definitions below are a shallow embedding of the Python sources:

  * `src/simulator/dragao_simulator.py` — the running simulator
    (`run_stadium_simulation`): the per-agent state machine (integer states
    3..12), the per-tick movement logic, the phase clock, the zone-occupancy
    counters and the geometric predicates of the in-file `StadiumBoundaries`
    class.  The simulator loads an optional background image
    (`map_stadium.png`); that file is not part of the repository, so the
    `except` branch applies and `is_position_valid` equals
    `boundaries.is_position_allowed`, which is what we embed.
  * `src/simulator/event_generator.py` — `update_zone_occupancy` (identical
    to the copy inside `dragao_simulator.py`).
  * `src/simulator/stadium_boundaries.py` — the level-aware variant; we
    embed its bars/toilets tables and `_get_nearest_generic`
    (prefixed `sb_` to keep the two `StadiumBoundaries` classes apart).

Numbers: Python floats are embedded as real numbers; all literals appearing
in the source are exact decimal fractions, so nothing is lost.  Random draws
(`np.random.uniform(-0.5, 0.5)` rotation angle, the bar/toilet coin) are
passed to the step function as explicit parameters.
-/

namespace Dragao

open Classical

/-! ## Zone-occupancy counters (EventGenerator)

`self.zone_counters` is a `defaultdict(int)`: every zone starts at 0.
`update_zone_occupancy` does `counter += delta; counter = max(0, counter)`.
This is the only mutation of the counters (both copies of the class are
identical here). -/

/-- The zone counters of `EventGenerator`, as a total map from zone
identifier to an integer count (a `defaultdict(int)` in the source). -/
abbrev Counters := String → ℤ

/-- `EventGenerator.update_zone_occupancy(zone_id, delta)`:
adds `delta` to the zone's counter and clamps the result at zero from
below.  No upper clamp is applied. -/
def update_zone_occupancy (c : Counters) (zoneId : String) (delta : ℤ) :
    Counters :=
  fun z => if z = zoneId then max 0 (c zoneId + delta) else c z

/-! ## Static stadium tables of the simulator's own StadiumBoundaries -/

/-- Names of the seating areas in `StadiumBoundaries.seating_areas`. -/
def seating_area_names : List String :=
  ["NORTE_1", "NORTE_2", "NORTE_3", "NORTE_4", "NORTE_5", "NORTE_6",
   "SUL_1", "SUL_2", "SUL_3", "SUL_4", "SUL_5", "SUL_6",
   "LESTE_1", "LESTE_2", "LESTE_3",
   "OESTE_1", "OESTE_2", "OESTE_3"]

/-- Names of the bars in `StadiumBoundaries.bars`. -/
def bar_names : List String :=
  ["BAR_NORTE", "BAR_SUL", "BAR_LESTE", "BAR_OESTE"]

/-- Names of the toilets in `StadiumBoundaries.toilets`. -/
def toilet_names : List String :=
  ["WC_NORTE_1", "WC_NORTE_2", "WC_SUL_1", "WC_SUL_2", "WC_LESTE",
   "WC_OESTE"]

/-- Names of the gates in `StadiumBoundaries.gates`. -/
def gate_names : List String :=
  ["GATE_NORTH", "GATE_SOUTH", "GATE_EAST", "GATE_WEST"]

/-- `StadiumBoundaries.zone_capacities`: 200 per seating area, 50 per bar,
30 per toilet, 100 per gate (the simulator reads it with default 100). -/
def zone_capacities (z : String) : ℤ :=
  if z ∈ seating_area_names then 200
  else if z ∈ bar_names then 50
  else if z ∈ toilet_names then 30
  else if z ∈ gate_names then 100
  else 100

/-! ## Scenario clock -/

/-- `TIMELINE["pre_game"]`. -/
def TIMELINE_pre_game : ℚ := 60
/-- `TIMELINE["game_start"]`. -/
def TIMELINE_game_start : ℚ := 120
/-- `TIMELINE["half_time"]`. -/
def TIMELINE_half_time : ℚ := 180
/-- `TIMELINE["game_resume"]`. -/
def TIMELINE_game_resume : ℚ := 240
/-- `TIMELINE["game_end"]`. -/
def TIMELINE_game_end : ℚ := 280

/-- `FPS = 5` in `run_stadium_simulation`. -/
def FPS : ℚ := 5

/-- `current_time = step / FPS` at the top of the simulation loop. -/
def current_time (step : ℕ) : ℚ := (step : ℚ) / FPS

/-- The six phase labels the simulation loop can display, in the order they
occur (the source strings, without accents: ENTRADA, PRE-JOGO, 1a PARTE,
INTERVALO, 2a PARTE, SAIDA). -/
inductive Phase where
  | entrada
  | preJogo
  | primeiraParte
  | intervalo
  | segundaParte
  | saida
deriving DecidableEq, Repr

/-- The phase computation of the simulation loop:
starts at `ENTRADA` and is overridden by the if/elif chain keyed on
`current_time` against the `TIMELINE` boundaries. -/
def phase_of (t : ℚ) : Phase :=
  if t > TIMELINE_game_end then .saida
  else if t > TIMELINE_game_resume then .segundaParte
  else if t > TIMELINE_half_time then .intervalo
  else if t > TIMELINE_game_start then .primeiraParte
  else if t > TIMELINE_pre_game then .preJogo
  else .entrada

/-- Position of a phase in the chronological order of the six labels. -/
def phaseIdx : Phase → ℕ
  | .entrada => 0
  | .preJogo => 1
  | .primeiraParte => 2
  | .intervalo => 3
  | .segundaParte => 4
  | .saida => 5

/-- The five named phases of the specification
(PRE_GAME, FIRST_HALF, HALF_TIME, SECOND_HALF, POST_GAME), identified with
the source labels PRE-JOGO, 1a PARTE, INTERVALO, 2a PARTE, SAIDA. -/
def specPhases : List Phase :=
  [.preJogo, .primeiraParte, .intervalo, .segundaParte, .saida]

/-! ## Geometry of the simulator's StadiumBoundaries

`stadium_bounds = x in [-60,60], y in [-45,45]`, `field_center = [0,0]`,
`field_radius_x = 35`, `field_radius_y = 20`. -/

/-- `StadiumBoundaries.is_inside_stadium(x, y)`. -/
def is_inside_stadium (x y : ℝ) : Prop :=
  -60 ≤ x ∧ x ≤ 60 ∧ -45 ≤ y ∧ y ≤ 45

/-- `StadiumBoundaries.is_inside_field(x, y)`:
the point is inside the elliptical playing field. -/
def is_inside_field (x y : ℝ) : Prop :=
  (x / 35) ^ 2 + (y / 20) ^ 2 ≤ 1

/-- `StadiumBoundaries.is_position_allowed(x, y)`. -/
def is_position_allowed (x y : ℝ) : Prop :=
  is_inside_stadium x y ∧ ¬ is_inside_field x y

/-- `is_position_valid(x, y)` of `run_stadium_simulation`.  The background
image `map_stadium.png` is not part of the repository, so the image loader
raises and `use_image` is `False`: the predicate falls back to
`boundaries.is_position_allowed`. -/
def is_position_valid (x y : ℝ) : Prop := is_position_allowed x y

/-- `np.linalg.norm(q - p)`: Euclidean distance between two points. -/
noncomputable def distance (p q : ℝ × ℝ) : ℝ :=
  Real.sqrt ((q.1 - p.1) ^ 2 + (q.2 - p.2) ^ 2)

/-- `step_vector = (direction / distance) * speed`, with
`direction = dest - cur`. -/
noncomputable def stepVec (cur dest : ℝ × ℝ) (speed : ℝ) : ℝ × ℝ :=
  ((dest.1 - cur.1) / distance cur dest * speed,
   (dest.2 - cur.2) / distance cur dest * speed)

/-- The validity-checked movement attempt shared by the movement branches of
states 5, 7, 8, 10 and 11:
`new_pos = current_pos + step_vector; if is_position_valid(new_pos):
positions[i] = new_pos` (otherwise the position is left as it is). -/
noncomputable def tryStep (cur dest : ℝ × ℝ) (speed : ℝ) (pos : ℝ × ℝ) :
    ℝ × ℝ :=
  let newPos := (cur.1 + (stepVec cur dest speed).1,
                 cur.2 + (stepVec cur dest speed).2)
  if is_position_valid newPos.1 newPos.2 then newPos else pos

/-- Application of the 2x2 rotation matrix
`[[cos a, -sin a], [sin a, cos a]]` to a vector (`rotation @ step_vector`
in the state-3 fallback). -/
noncomputable def rotApply (angle : ℝ) (v : ℝ × ℝ) : ℝ × ℝ :=
  (Real.cos angle * v.1 - Real.sin angle * v.2,
   Real.sin angle * v.1 + Real.cos angle * v.2)

/-! ## Nearest-point-of-interest queries of the simulator's
StadiumBoundaries.  Each is `np.argmin` of the distances over the values of
the corresponding dict; `np.argmin` returns the first index attaining the
minimum, which is the fold below (the running best is replaced only on a
strictly smaller distance). -/

/-- First-minimum fold over a candidate list, mirroring `np.argmin` over
the distances from `position`. -/
noncomputable def argminBy (position : ℝ × ℝ) :
    String × (ℝ × ℝ) → List (String × (ℝ × ℝ)) → String × (ℝ × ℝ)
  | best, [] => best
  | best, cand :: rest =>
      if distance position cand.2 < distance position best.2 then
        argminBy position cand rest
      else
        argminBy position best rest

/-- `StadiumBoundaries.get_nearest_gate(position)` of the simulator file:
nearest of the four gates, dict insertion order NORTH, SOUTH, EAST, WEST. -/
noncomputable def get_nearest_gate (position : ℝ × ℝ) : String × (ℝ × ℝ) :=
  argminBy position ("GATE_NORTH", (0, 48))
    [("GATE_SOUTH", (0, -48)), ("GATE_EAST", (60, 0)),
     ("GATE_WEST", (-60, 0))]

/-- `StadiumBoundaries.get_nearest_bar(position)` of the simulator file. -/
noncomputable def get_nearest_bar (position : ℝ × ℝ) : String × (ℝ × ℝ) :=
  argminBy position ("BAR_NORTE", (0, 35))
    [("BAR_SUL", (0, -35)), ("BAR_LESTE", (45, 0)), ("BAR_OESTE", (-45, 0))]

/-- `StadiumBoundaries.get_nearest_toilet(position)` of the simulator
file. -/
noncomputable def get_nearest_toilet (position : ℝ × ℝ) :
    String × (ℝ × ℝ) :=
  argminBy position ("WC_NORTE_1", (40, 30))
    [("WC_NORTE_2", (-40, 30)), ("WC_SUL_1", (40, -30)),
     ("WC_SUL_2", (-40, -30)), ("WC_LESTE", (50, 0)),
     ("WC_OESTE", (-50, 0))]

/-! ## The per-agent per-tick update

One iteration of `for i in range(n_pedestrians)` in the simulation loop
(lines 724-909).  The loop body is a sequence of independent `if` blocks
keyed on `states[i]`; a block can change the state and a later block of the
same iteration then fires on the new state.  All blocks compute directions
from the variable `current_pos`, which is read once at the top of the
iteration and is not refreshed when a block moves the agent; the blocks
below therefore receive that snapshot as the parameter `cur`.

Integer state codes: 3 walking to seat, 4 seated, 5 walking to bar,
6 at bar, 7 returning from bar, 8 walking to toilet, 9 at toilet,
10 returning from toilet, 11 walking to exit gate, 12 exited. -/

/-- Per-agent data of the simulator: the parallel arrays `states`,
`positions`, `destinations`, the dicts `current_destinations`,
`assigned_seats`, `assigned_zones`, `entry_gates` and the row of
`service_times`, gathered into one record.  `currentDest` is the
`current_destinations` entry, the empty string standing for "not set yet"
(Python falsy, matching the `if current_destinations[i]:` truthiness
tests). -/
structure Agent where
  state : ℤ
  pos : ℝ × ℝ
  dest : ℝ × ℝ
  currentDest : String
  seat : ℝ × ℝ
  zone : String
  entryGate : String
  serviceTime : ℚ

/-- State-3 block (walking to seat, lines 727-750): move toward the
destination at speed 0.8; if the direct step is invalid, move by the step
vector rotated by a random `angle` drawn from `uniform(-0.5, 0.5)` and
scaled by a further 0.8 — without any validity check.  On arrival
(distance at most 1) the agent sits: state 4, position snapped to the
assigned seat, zone counter incremented. -/
noncomputable def block3 (angle : ℝ) (cur : ℝ × ℝ)
    (ac : Agent × Counters) : Agent × Counters :=
  let a := ac.1
  let c := ac.2
  if a.state = 3 then
    if distance cur a.dest > 1 then
      let sv := stepVec cur a.dest 0.8
      let newPos := (cur.1 + sv.1, cur.2 + sv.2)
      if is_position_valid newPos.1 newPos.2 then
        ({ a with pos := newPos }, c)
      else
        let rot := rotApply angle sv
        ({ a with pos := (cur.1 + rot.1 * 0.8, cur.2 + rot.2 * 0.8) }, c)
    else
      ({ a with state := 4, pos := a.seat },
       update_zone_occupancy c a.zone 1)
  else ac

/-- Seated half-time decision block (lines 752-775): during the half-time
window, once `current_time` has passed the agent's pre-sampled
`service_times[i]`, the agent leaves its seat; a fair coin
(`np.random.random() < 0.5`, passed in as `coin`) picks the nearest bar
(state 5) or the nearest toilet (state 8). -/
noncomputable def block4 (t : ℚ) (coin : ℝ) (cur : ℝ × ℝ)
    (ac : Agent × Counters) : Agent × Counters :=
  let a := ac.1
  let c := ac.2
  if a.state = 4 ∧ TIMELINE_half_time ≤ t ∧ t < TIMELINE_game_resume ∧
      a.serviceTime ≤ t then
    let c1 := update_zone_occupancy c a.zone (-1)
    if coin < 0.5 then
      let nb := get_nearest_bar cur
      ({ a with state := 5, currentDest := nb.1, dest := nb.2 }, c1)
    else
      let nt := get_nearest_toilet cur
      ({ a with state := 8, currentDest := nt.1, dest := nt.2 }, c1)
  else ac

/-- State-5 block (walking to bar, lines 777-804): move at speed 0.7 with
validity check; on arrival (distance at most 2) the agent is at the bar:
state 6, position snapped to the destination, and the bar's zone counter is
incremented.  (The source then spawns a timer thread which later runs
`return_from_bar`; the in-tick effect is captured here, the callback is
`return_from_bar` below.) -/
noncomputable def block5 (cur : ℝ × ℝ) (ac : Agent × Counters) :
    Agent × Counters :=
  let a := ac.1
  let c := ac.2
  if a.state = 5 then
    if distance cur a.dest > 2 then
      ({ a with pos := tryStep cur a.dest 0.7 a.pos }, c)
    else
      ({ a with state := 6, pos := a.dest },
       update_zone_occupancy c a.currentDest 1)
  else ac

/-- State-7 block (returning from bar, lines 806-826): move at speed 0.7
with validity check; on arrival (distance at most 1) the agent sits back
down: state 4, position snapped to the seat, the bar counter decremented
(when set) and the seat-zone counter incremented. -/
noncomputable def block7 (cur : ℝ × ℝ) (ac : Agent × Counters) :
    Agent × Counters :=
  let a := ac.1
  let c := ac.2
  if a.state = 7 then
    if distance cur a.dest > 1 then
      ({ a with pos := tryStep cur a.dest 0.7 a.pos }, c)
    else
      let c1 := if a.currentDest ≠ "" then
          update_zone_occupancy c a.currentDest (-1)
        else c
      ({ a with state := 4, pos := a.seat },
       update_zone_occupancy c1 a.zone 1)
  else ac

/-- State-8 block (walking to toilet, lines 828-855): speed 0.6, arrival
threshold 2; on arrival state 9 and the toilet counter is incremented. -/
noncomputable def block8 (cur : ℝ × ℝ) (ac : Agent × Counters) :
    Agent × Counters :=
  let a := ac.1
  let c := ac.2
  if a.state = 8 then
    if distance cur a.dest > 2 then
      ({ a with pos := tryStep cur a.dest 0.6 a.pos }, c)
    else
      ({ a with state := 9, pos := a.dest },
       update_zone_occupancy c a.currentDest 1)
  else ac

/-- State-10 block (returning from toilet, lines 857-877): speed 0.6,
arrival threshold 1; on arrival the agent sits back down exactly as in the
state-7 block. -/
noncomputable def block10 (cur : ℝ × ℝ) (ac : Agent × Counters) :
    Agent × Counters :=
  let a := ac.1
  let c := ac.2
  if a.state = 10 then
    if distance cur a.dest > 1 then
      ({ a with pos := tryStep cur a.dest 0.6 a.pos }, c)
    else
      let c1 := if a.currentDest ≠ "" then
          update_zone_occupancy c a.currentDest (-1)
        else c
      ({ a with state := 4, pos := a.seat },
       update_zone_occupancy c1 a.zone 1)
  else ac

/-- Exit-trigger block (lines 879-889): once `current_time` has passed
`TIMELINE["game_end"]`, every seated agent switches to state 11 with the
gate nearest its current position as destination, and its seat-zone counter
is decremented. -/
noncomputable def blockExit (t : ℚ) (cur : ℝ × ℝ)
    (ac : Agent × Counters) : Agent × Counters :=
  let a := ac.1
  let c := ac.2
  if t > TIMELINE_game_end ∧ a.state = 4 then
    let ng := get_nearest_gate cur
    ({ a with state := 11, currentDest := ng.1, dest := ng.2 },
     update_zone_occupancy c a.zone (-1))
  else ac

/-- State-11 block (walking to exit gate, lines 891-909): speed 0.9,
arrival threshold 2; on arrival the agent has exited: state 12, position
snapped to the gate. -/
noncomputable def block11 (cur : ℝ × ℝ) (ac : Agent × Counters) :
    Agent × Counters :=
  let a := ac.1
  let c := ac.2
  if a.state = 11 then
    if distance cur a.dest > 2 then
      ({ a with pos := tryStep cur a.dest 0.9 a.pos }, c)
    else
      ({ a with state := 12, pos := a.dest }, c)
  else ac

/-- One full iteration of the per-agent loop body for agent `a` at
simulated time `t`: the eight `if` blocks in source order, all reading the
position snapshot `current_pos` taken at the top of the iteration.
`angle` is the random rotation angle of the state-3 fallback and `coin`
the random bar/toilet draw of the seated block. -/
noncomputable def agentStep (t : ℚ) (angle coin : ℝ) (a : Agent)
    (c : Counters) : Agent × Counters :=
  let cur := a.pos
  block11 cur (blockExit t cur (block10 cur (block8 cur (block7 cur
    (block5 cur (block4 t coin cur (block3 angle cur (a, c))))))))

/-- The timer-thread callback spawned on arrival at a bar
(`return_from_bar`): if the agent is still at the bar (state 6), send it
back to its seat (state 7, destination the assigned seat). -/
def return_from_bar (a : Agent) : Agent :=
  if a.state = 6 then { a with state := 7, dest := a.seat } else a

/-- The timer-thread callback spawned on arrival at a toilet
(`return_from_toilet`): if the agent is still at the toilet (state 9),
send it back to its seat (state 10). -/
def return_from_toilet (a : Agent) : Agent :=
  if a.state = 9 then { a with state := 10, dest := a.seat } else a

/-- Iterated ticks for one agent: fold `agentStep` over a list of
per-tick inputs (simulated time, rotation draw, coin draw). -/
noncomputable def runTicks (ticks : List (ℚ × ℝ × ℝ))
    (ac : Agent × Counters) : Agent × Counters :=
  ticks.foldl (fun s inp => agentStep inp.1 inp.2.1 inp.2.2 s.1 s.2) ac

end Dragao

namespace SB

/-!  ## The level-aware StadiumBoundaries of
`src/simulator/stadium_boundaries.py` (prefix `sb_`/namespace `SB` to keep
it apart from the class of the same name inside the simulator file).  Only
the parts the claims touch are embedded: the bars and toilets tables and
the nearest-facility queries. -/

/-- One entry of `self.bars` / `self.toilets`: service-point center,
floor level and capacity. -/
structure Facility where
  center : ℝ × ℝ
  level : ℕ
  capacity : ℕ

/-- `StadiumBoundaries._create_bars()`: the twelve `REST_L0_*` bars, all on
level 0 with capacity 20. -/
noncomputable def bars : List (String × Facility) :=
  [("REST_L0_1", ⟨(744.2, 818.6), 0, 20⟩),
   ("REST_L0_2", ⟨(957.8, 768.0), 0, 20⟩),
   ("REST_L0_3", ⟨(1109.5, 648.1), 0, 20⟩),
   ("REST_L0_4", ⟨(1169.5, 481.4), 0, 20⟩),
   ("REST_L0_5", ⟨(1109.5, 316.5), 0, 20⟩),
   ("REST_L0_6", ⟨(955.9, 194.7), 0, 20⟩),
   ("REST_L0_7", ⟨(746.1, 144.1), 0, 20⟩),
   ("REST_L0_8", ⟨(534.4, 194.7), 0, 20⟩),
   ("REST_L0_9", ⟨(378.9, 314.6), 0, 20⟩),
   ("REST_L0_10", ⟨(322.7, 479.5), 0, 20⟩),
   ("REST_L0_11", ⟨(380.8, 644.4), 0, 20⟩),
   ("REST_L0_12", ⟨(536.3, 768.0), 0, 20⟩)]

/-- `StadiumBoundaries._create_toilets()`: eight level-0 and eight level-1
toilets, capacity 10 each. -/
noncomputable def toilets : List (String × Facility) :=
  [("WC_L0_1", ⟨(639.3, 786.7), 0, 10⟩),
   ("WC_L0_2", ⟨(851.0, 788.6), 0, 10⟩),
   ("WC_L0_3", ⟨(1141.4, 565.7), 0, 10⟩),
   ("WC_L0_4", ⟨(1139.5, 397.1), 0, 10⟩),
   ("WC_L0_5", ⟨(852.9, 172.2), 0, 10⟩),
   ("WC_L0_6", ⟨(639.3, 174.1), 0, 10⟩),
   ("WC_L0_7", ⟨(348.9, 400.8), 0, 10⟩),
   ("WC_L0_8", ⟨(348.9, 561.9), 0, 10⟩),
   ("WC_L1_1", ⟨(586.2, 813.7), 1, 10⟩),
   ("WC_L1_2", ⟨(832.2, 813.7), 1, 10⟩),
   ("WC_L1_3", ⟨(1159.0, 553.7), 1, 10⟩),
   ("WC_L1_4", ⟨(1159.0, 362.1), 1, 10⟩),
   ("WC_L1_5", ⟨(828.7, 107.4), 1, 10⟩),
   ("WC_L1_6", ⟨(584.4, 107.4), 1, 10⟩),
   ("WC_L1_7", ⟨(255.9, 367.4), 1, 10⟩),
   ("WC_L1_8", ⟨(254.1, 557.2), 1, 10⟩)]

/-- The min-distance loop of `_get_nearest_generic`: `min_dist` starts at
infinity and is replaced on strictly smaller distances, so the fold below
(first strict minimum, seeded with the first candidate) is the same
computation. -/
noncomputable def sbArgmin (position : ℝ × ℝ) :
    String × Facility → List (String × Facility) → String × Facility
  | best, [] => best
  | best, cand :: rest =>
      if Dragao.distance position cand.2.center <
          Dragao.distance position best.2.center then
        sbArgmin position cand rest
      else
        sbArgmin position best rest

/-- `StadiumBoundaries._get_nearest_generic(collection, position, level)`:
restrict the collection to the requested floor level; if the subset is
empty return `None, None` (here `none`), otherwise the entry of minimal
distance. -/
noncomputable def sb_get_nearest_generic (collection : List (String × Facility))
    (position : ℝ × ℝ) (level : ℕ) : Option (String × Facility) :=
  let subset := collection.filter (fun kv => kv.2.level == level)
  match subset with
  | [] => none
  | h :: rest => some (sbArgmin position h rest)

/-- `StadiumBoundaries.get_nearest_bar(position, level)`. -/
noncomputable def sb_get_nearest_bar (position : ℝ × ℝ) (level : ℕ) :
    Option (String × Facility) :=
  sb_get_nearest_generic bars position level

/-- `StadiumBoundaries.get_nearest_toilet(position, level)`. -/
noncomputable def sb_get_nearest_toilet (position : ℝ × ℝ) (level : ℕ) :
    Option (String × Facility) :=
  sb_get_nearest_generic toilets position level

end SB

namespace QueueMgr

/-!  ## The Facility and Queue Manager, modelled from the spec.

Modelled from the spec: the repository declares the queue bookkeeping
(`EventGenerator.queue_counters`, a per-facility record with fields
`count`, `arrivals` and `departures`) but contains no code operating on
it; the operations `requestService`, per-tick queue admission and
`release` exist only in the specification (section 4.3).  The definitions
in this namespace follow the spec's words:

  * `requestService(agentId, facilityId)`: if `occupancy < capacity`,
    admit immediately (increment occupancy, agent becomes `IN_SERVICE`);
    otherwise append the agent id to the facility's FIFO queue
    (`QUEUED_AT_SERVICE`).
  * `tick(facilityId)`: if the queue is non-empty and
    `occupancy < capacity`, pop the head of the queue and admit it.
  * `release(agentId, facilityId)`: decrement occupancy, floored at zero.
-/

/-- Outcome of `requestService` for the requesting agent. -/
inductive SvcState where
  | inService
  | queuedAtService
deriving DecidableEq, Repr

/-- A capacity-bounded service point with its FIFO queue of agent ids.
Modelled from the spec (section 3, Facility). -/
structure Facility where
  occupancy : ℕ
  capacity : ℕ
  queue : List ℕ
deriving DecidableEq, Repr

/-- Modelled from the spec: `requestService(agentId, facilityId)`. -/
def requestService (f : Facility) (agentId : ℕ) : Facility × SvcState :=
  if f.occupancy < f.capacity then
    ({ f with occupancy := f.occupancy + 1 }, .inService)
  else
    ({ f with queue := f.queue ++ [agentId] }, .queuedAtService)

/-- Modelled from the spec: `tick(facilityId)`.  Returns the updated
facility and the agent admitted from the queue, if any. -/
def tickFacility (f : Facility) : Facility × Option ℕ :=
  match f.queue with
  | [] => (f, none)
  | x :: rest =>
      if f.occupancy < f.capacity then
        ({ occupancy := f.occupancy + 1, capacity := f.capacity,
           queue := rest }, some x)
      else
        (f, none)

/-- Modelled from the spec: `release(agentId, facilityId)` decrements
occupancy, floored at zero (natural subtraction). -/
def releaseService (f : Facility) : Facility :=
  { f with occupancy := f.occupancy - 1 }

/-- One operation of the manager, as seen by a single facility. -/
inductive FOp where
  | request (agentId : ℕ)
  | tick
  | release
deriving DecidableEq, Repr

/-- Apply one operation to a facility, extending the log of agents
admitted from the queue. -/
def applyOp (s : Facility × List ℕ) (op : FOp) : Facility × List ℕ :=
  match op with
  | .request agentId => ((requestService s.1 agentId).1, s.2)
  | .tick =>
      let r := tickFacility s.1
      (r.1, s.2 ++ r.2.toList)
  | .release => (releaseService s.1, s.2)

/-- Run a sequence of manager operations on a facility, collecting in
order the agents admitted from the queue. -/
def runOps (f : Facility) (ops : List FOp) : Facility × List ℕ :=
  ops.foldl applyOp (f, [])

end QueueMgr

/-! # Theorems -/

namespace Dragao

/-! ## Helper lemmas about the per-agent blocks -/

theorem block3_skip (angle : ℝ) (cur : ℝ × ℝ) (ac : Agent × Counters)
    (h : ac.1.state ≠ 3) : block3 angle cur ac = ac := by
  unfold block3
  exact if_neg h

theorem block4_skip (t : ℚ) (coin : ℝ) (cur : ℝ × ℝ)
    (ac : Agent × Counters) (h : ac.1.state ≠ 4) :
    block4 t coin cur ac = ac := by
  unfold block4
  exact if_neg (fun hc => h hc.1)

theorem block4_skip_time (t : ℚ) (coin : ℝ) (cur : ℝ × ℝ)
    (ac : Agent × Counters) (h : ¬ t < TIMELINE_game_resume) :
    block4 t coin cur ac = ac := by
  unfold block4
  exact if_neg (fun hc => h hc.2.2.1)

theorem block5_skip (cur : ℝ × ℝ) (ac : Agent × Counters)
    (h : ac.1.state ≠ 5) : block5 cur ac = ac := by
  unfold block5
  exact if_neg h

theorem block7_skip (cur : ℝ × ℝ) (ac : Agent × Counters)
    (h : ac.1.state ≠ 7) : block7 cur ac = ac := by
  unfold block7
  exact if_neg h

theorem block8_skip (cur : ℝ × ℝ) (ac : Agent × Counters)
    (h : ac.1.state ≠ 8) : block8 cur ac = ac := by
  unfold block8
  exact if_neg h

theorem block10_skip (cur : ℝ × ℝ) (ac : Agent × Counters)
    (h : ac.1.state ≠ 10) : block10 cur ac = ac := by
  unfold block10
  exact if_neg h

theorem blockExit_skip (t : ℚ) (cur : ℝ × ℝ) (ac : Agent × Counters)
    (h : ac.1.state ≠ 4) : blockExit t cur ac = ac := by
  unfold blockExit
  exact if_neg (fun hc => h hc.2)

theorem block11_skip (cur : ℝ × ℝ) (ac : Agent × Counters)
    (h : ac.1.state ≠ 11) : block11 cur ac = ac := by
  unfold block11
  exact if_neg h

theorem block5_arrive (cur : ℝ × ℝ) (ac : Agent × Counters)
    (h : ac.1.state = 5) (hd : ¬ distance cur ac.1.dest > 2) :
    block5 cur ac =
      ({ ac.1 with state := 6, pos := ac.1.dest },
       update_zone_occupancy ac.2 ac.1.currentDest 1) := by
  unfold block5
  rw [if_pos h, if_neg hd]

theorem block8_arrive (cur : ℝ × ℝ) (ac : Agent × Counters)
    (h : ac.1.state = 8) (hd : ¬ distance cur ac.1.dest > 2) :
    block8 cur ac =
      ({ ac.1 with state := 9, pos := ac.1.dest },
       update_zone_occupancy ac.2 ac.1.currentDest 1) := by
  unfold block8
  rw [if_pos h, if_neg hd]

theorem blockExit_fire (t : ℚ) (cur : ℝ × ℝ) (ac : Agent × Counters)
    (ht : t > TIMELINE_game_end) (h : ac.1.state = 4) :
    blockExit t cur ac =
      ({ ac.1 with
          state := 11,
          currentDest := (get_nearest_gate cur).1,
          dest := (get_nearest_gate cur).2 },
       update_zone_occupancy ac.2 ac.1.zone (-1)) := by
  unfold blockExit
  rw [if_pos ⟨ht, h⟩]

/-- The state-11 block never touches the destination, the facility/gate
association, the seat data or the counters. -/
theorem block11_preserves (cur : ℝ × ℝ) (ac : Agent × Counters) :
    (block11 cur ac).1.currentDest = ac.1.currentDest ∧
    (block11 cur ac).1.dest = ac.1.dest ∧
    (block11 cur ac).1.entryGate = ac.1.entryGate ∧
    (block11 cur ac).2 = ac.2 := by
  simp only [block11]
  split_ifs <;> simp

/-- Evaluation of the per-agent step for a walking-to-bar agent that has
reached its bar (distance at most 2): it is admitted unconditionally. -/
theorem arrive5_eval (t : ℚ) (angle coin : ℝ) (a : Agent) (c : Counters)
    (h5 : a.state = 5) (hd : distance a.pos a.dest ≤ 2) :
    agentStep t angle coin a c =
      ({ a with state := 6, pos := a.dest },
       update_zone_occupancy c a.currentDest 1) := by
  simp only [agentStep]
  rw [block3_skip _ _ _ (by simp [h5]),
      block4_skip _ _ _ _ (by simp [h5]),
      block5_arrive _ _ (by simpa using h5) (by simpa using not_lt.mpr hd),
      block7_skip _ _ (by simp),
      block8_skip _ _ (by simp),
      block10_skip _ _ (by simp),
      blockExit_skip _ _ _ (by simp),
      block11_skip _ _ (by simp)]

/-- Evaluation of the per-agent step for a walking-to-toilet agent that
has reached its toilet (distance at most 2): admitted unconditionally. -/
theorem arrive8_eval (t : ℚ) (angle coin : ℝ) (a : Agent) (c : Counters)
    (h8 : a.state = 8) (hd : distance a.pos a.dest ≤ 2) :
    agentStep t angle coin a c =
      ({ a with state := 9, pos := a.dest },
       update_zone_occupancy c a.currentDest 1) := by
  simp only [agentStep]
  rw [block3_skip _ _ _ (by simp [h8]),
      block4_skip _ _ _ _ (by simp [h8]),
      block5_skip _ _ (by simp [h8]),
      block7_skip _ _ (by simp [h8]),
      block8_arrive _ _ (by simpa using h8) (by simpa using not_lt.mpr hd),
      block10_skip _ _ (by simp),
      blockExit_skip _ _ _ (by simp),
      block11_skip _ _ (by simp)]

/-- Evaluation of the per-agent step for an exited agent: nothing fires. -/
theorem agentStep_exited (t : ℚ) (angle coin : ℝ) (a : Agent)
    (c : Counters) (h : a.state = 12) :
    agentStep t angle coin a c = (a, c) := by
  simp only [agentStep]
  rw [block3_skip _ _ _ (by simp [h]),
      block4_skip _ _ _ _ (by simp [h]),
      block5_skip _ _ (by simp [h]),
      block7_skip _ _ (by simp [h]),
      block8_skip _ _ (by simp [h]),
      block10_skip _ _ (by simp [h]),
      blockExit_skip _ _ _ (by simp [h]),
      block11_skip _ _ (by simp [h])]

end Dragao

namespace Dragao

/-! ## Claim C6: EXITED is terminal and absorbing -/

/-- Claim C6: once an agent has reached the exited state (12), neither any
later simulation tick nor either timer-thread callback changes its state,
its position, or anything else about it, and the zone counters are left
untouched as well. -/
theorem C6_exited_terminal (ticks : List (ℚ × ℝ × ℝ)) (a : Agent)
    (c : Counters) (h : a.state = 12) :
    runTicks ticks (a, c) = (a, c) ∧
    return_from_bar a = a ∧
    return_from_toilet a = a := by
  refine ⟨?_, ?_, ?_⟩
  · induction ticks with
    | nil => rfl
    | cons x xs ih =>
        unfold runTicks at ih ⊢
        rw [List.foldl_cons]
        simpa [agentStep_exited x.1 x.2.1 x.2.2 a c h] using ih
  · unfold return_from_bar
    rw [if_neg (by rw [h]; decide)]
  · unfold return_from_toilet
    rw [if_neg (by rw [h]; decide)]

/-- Witness for C6 at an exited agent standing on its exit gate. -/
theorem C6_exited_terminal_witness :
    (⟨12, (0, 48), (0, 48), "GATE_NORTH", (10, 40), "NORTE_4",
      "GATE_NORTH", 200⟩ : Agent).state = 12 ∧
    (runTicks [(100, 0, 0)]
        (⟨12, (0, 48), (0, 48), "GATE_NORTH", (10, 40), "NORTE_4",
          "GATE_NORTH", 200⟩, fun _ => 0) =
      (⟨12, (0, 48), (0, 48), "GATE_NORTH", (10, 40), "NORTE_4",
        "GATE_NORTH", 200⟩, fun _ => 0) ∧
     return_from_bar ⟨12, (0, 48), (0, 48), "GATE_NORTH", (10, 40),
       "NORTE_4", "GATE_NORTH", 200⟩ =
       ⟨12, (0, 48), (0, 48), "GATE_NORTH", (10, 40), "NORTE_4",
         "GATE_NORTH", 200⟩ ∧
     return_from_toilet ⟨12, (0, 48), (0, 48), "GATE_NORTH", (10, 40),
       "NORTE_4", "GATE_NORTH", 200⟩ =
       ⟨12, (0, 48), (0, 48), "GATE_NORTH", (10, 40), "NORTE_4",
         "GATE_NORTH", 200⟩) :=
  ⟨rfl, C6_exited_terminal [(100, 0, 0)] _ _ rfl⟩

/-! ## Claim C7: the phase function -/

/-- Claim C7 counterexample: the phase function does not map every query
time into the five named phases of the specification — at time 0 (and
up to the first boundary) it yields a sixth value, ENTRADA. -/
theorem C7_counterexample :
    phase_of 0 = Phase.entrada ∧ Phase.entrada ∉ specPhases := by
  constructor
  · unfold phase_of TIMELINE_game_end TIMELINE_game_resume
      TIMELINE_half_time TIMELINE_game_start TIMELINE_pre_game
    norm_num
  · decide

/-- Claim C7 as amended: the phase function is a non-decreasing step
function through the SIX source labels ENTRADA, PRE-JOGO, 1a PARTE,
INTERVALO, 2a PARTE, SAIDA in that order (one more label, ENTRADA for
times up to the pre-game boundary, than the five the claim lists). -/
theorem C7_phase_monotone (t1 t2 : ℚ) (h : t1 ≤ t2) :
    phaseIdx (phase_of t1) ≤ phaseIdx (phase_of t2) := by
  unfold phase_of TIMELINE_game_end TIMELINE_game_resume TIMELINE_half_time
    TIMELINE_game_start TIMELINE_pre_game
  split_ifs <;> simp [phaseIdx] <;> linarith

/-- Witness for C7 at times 0 and 300. -/
theorem C7_phase_monotone_witness :
    (0 : ℚ) ≤ 300 ∧ phaseIdx (phase_of 0) ≤ phaseIdx (phase_of 300) :=
  ⟨by norm_num, C7_phase_monotone 0 300 (by norm_num)⟩

/-! ## Claim C9: time per tick -/

/-- Claim C9 counterexample: one tick does not advance simulated time by
one second — from step 0 to step 1 it advances by 1/5 of a second. -/
theorem C9_counterexample :
    ¬ (current_time 1 - current_time 0 = 1) := by
  unfold current_time FPS
  norm_num

/-- Claim C9 as amended: every tick advances simulated time by exactly
1/FPS = 1/5 of a second. -/
theorem C9_tick_advance (k : ℕ) :
    current_time (k + 1) - current_time k = 1 / FPS := by
  unfold current_time FPS
  push_cast
  ring

/-! ## Claim C2: the capacity invariant of the counters -/

/-- Claim C2 counterexample: the occupancy bound is not preserved by
`update_zone_occupancy`.  With the counter of BAR_NORTE at its capacity 50
(a state satisfying 0 ≤ occupancy ≤ capacity), an admission increment
takes it to 51 > 50.  The simulator performs exactly this increment on
every arrival at a bar, with no capacity test (see claim C1). -/
theorem C2_counterexample :
    (0 ≤ ((fun _ => (50 : ℤ)) : Counters) "BAR_NORTE" ∧
      ((fun _ => (50 : ℤ)) : Counters) "BAR_NORTE" ≤
        zone_capacities "BAR_NORTE") ∧
    update_zone_occupancy (fun _ => 50) "BAR_NORTE" 1 "BAR_NORTE" = 51 ∧
    ¬ (update_zone_occupancy (fun _ => 50) "BAR_NORTE" 1 "BAR_NORTE" ≤
        zone_capacities "BAR_NORTE") := by
  refine ⟨⟨by norm_num, ?_⟩, ?_, ?_⟩ <;>
    simp [update_zone_occupancy, zone_capacities, seating_area_names,
      bar_names]

/-- Claim C2 as amended: only the lower bound holds.  The updated zone's
counter is never negative, and if all counters are non-negative they stay
non-negative after any update; the upper bound occupancy ≤ capacity is
not enforced anywhere (see the counterexample). -/
theorem C2_lower_bound (c : Counters) (z w : String) (delta : ℤ) :
    0 ≤ update_zone_occupancy c z delta z ∧
    ((∀ v, 0 ≤ c v) → 0 ≤ update_zone_occupancy c z delta w) := by
  constructor
  · unfold update_zone_occupancy
    simp
  · intro hc
    unfold update_zone_occupancy
    by_cases hw : w = z
    · simp [hw]
    · simpa [hw] using hc w

/-- Witness for C2 as amended: a release on an empty counter clamps at
zero, for the updated zone and for every other zone. -/
theorem C2_lower_bound_witness :
    0 ≤ update_zone_occupancy (fun _ => 0) "BAR_NORTE" (-3) "BAR_NORTE" ∧
    0 ≤ update_zone_occupancy (fun _ => 0) "BAR_NORTE" (-3) "WC_OESTE" :=
  ⟨(C2_lower_bound (fun _ => 0) "BAR_NORTE" "WC_OESTE" (-3)).1,
   (C2_lower_bound (fun _ => 0) "BAR_NORTE" "WC_OESTE" (-3)).2
     (fun _ => le_refl 0)⟩

end Dragao

/-! ## Claim C10: no bar on level 1 -/

/-- Claim C10: every bar of the level-aware StadiumBoundaries lives on
level 0, so the nearest-bar query at level 1 returns the None pair for
every position: a level-1 agent can never resolve a bar. -/
theorem C10_no_level1_bar (position : ℝ × ℝ) :
    SB.sb_get_nearest_bar position 1 = none := rfl

namespace Dragao

/-! ## Claim C1: facility admission -/

theorem distance_self (p : ℝ × ℝ) : distance p p = 0 := by
  simp [distance]

/-- Claim C1 as amended: an agent arriving at its target facility (within
the arrival threshold of 2) is ALWAYS admitted immediately — state set to
6 (at bar) resp. 9 (at toilet), position snapped to the service point, and
the facility's occupancy counter incremented — regardless of the
occupancy and capacity; no queue exists and no capacity test is made. -/
theorem C1_always_admits (t : ℚ) (angle coin : ℝ) (a : Agent)
    (c : Counters) :
    (a.state = 5 → distance a.pos a.dest ≤ 2 →
      agentStep t angle coin a c =
        ({ a with state := 6, pos := a.dest },
         update_zone_occupancy c a.currentDest 1)) ∧
    (a.state = 8 → distance a.pos a.dest ≤ 2 →
      agentStep t angle coin a c =
        ({ a with state := 9, pos := a.dest },
         update_zone_occupancy c a.currentDest 1)) :=
  ⟨fun h5 hd => arrive5_eval t angle coin a c h5 hd,
   fun h8 hd => arrive8_eval t angle coin a c h8 hd⟩

/-- Witness for C1 as amended: an agent standing on BAR_NORTE. -/
theorem C1_always_admits_witness :
    (⟨5, (0, 35), (0, 35), "BAR_NORTE", (10, 40), "NORTE_4",
      "GATE_NORTH", 200⟩ : Agent).state = 5 ∧
    distance ((0 : ℝ), (35 : ℝ)) ((0 : ℝ), (35 : ℝ)) ≤ 2 ∧
    agentStep 200 0 0
        ⟨5, (0, 35), (0, 35), "BAR_NORTE", (10, 40), "NORTE_4",
          "GATE_NORTH", 200⟩ (fun _ => 0) =
      ({ (⟨5, (0, 35), (0, 35), "BAR_NORTE", (10, 40), "NORTE_4",
           "GATE_NORTH", 200⟩ : Agent) with state := 6, pos := (0, 35) },
       update_zone_occupancy (fun _ => 0) "BAR_NORTE" 1) := by
  have hd : distance ((0 : ℝ), (35 : ℝ)) ((0 : ℝ), (35 : ℝ)) ≤ 2 := by
    rw [distance_self]
    norm_num
  exact ⟨rfl, hd, (C1_always_admits 200 0 0 _ _).1 rfl hd⟩

/-- Claim C1 counterexample: with the occupancy counter of BAR_NORTE
already at its capacity of 50 (so NOT strictly below capacity), an agent
arriving at the bar is admitted anyway: it ends the tick in state 6
(at the bar) with the counter pushed to 51, instead of being queued as
the claim requires. -/
theorem C1_counterexample :
    ¬ (((fun _ => (50 : ℤ)) : Counters) "BAR_NORTE" <
        zone_capacities "BAR_NORTE") ∧
    (agentStep 200 0 0
        ⟨5, (0, 35), (0, 35), "BAR_NORTE", (10, 40), "NORTE_4",
          "GATE_NORTH", 200⟩ (fun _ => 50)).1.state = 6 ∧
    (agentStep 200 0 0
        ⟨5, (0, 35), (0, 35), "BAR_NORTE", (10, 40), "NORTE_4",
          "GATE_NORTH", 200⟩ (fun _ => 50)).2 "BAR_NORTE" = 51 := by
  have hd : distance ((0 : ℝ), (35 : ℝ)) ((0 : ℝ), (35 : ℝ)) ≤ 2 := by
    rw [distance_self]
    norm_num
  have he := arrive5_eval 200 0 0
    ⟨5, (0, 35), (0, 35), "BAR_NORTE", (10, 40), "NORTE_4",
      "GATE_NORTH", 200⟩ (fun _ => 50) rfl hd
  rw [he]
  refine ⟨?_, rfl, ?_⟩
  · simp [zone_capacities, seating_area_names, bar_names]
  · simp [update_zone_occupancy]

end Dragao

namespace Dragao

/-! ## Claim C4 / C5: the navigation step and walkability -/

theorem block5_move (cur : ℝ × ℝ) (ac : Agent × Counters)
    (h : ac.1.state = 5) (hd : distance cur ac.1.dest > 2) :
    block5 cur ac =
      ({ ac.1 with pos := tryStep cur ac.1.dest 0.7 ac.1.pos }, ac.2) := by
  unfold block5
  rw [if_pos h, if_pos hd]

theorem block3_fallback (angle : ℝ) (cur : ℝ × ℝ) (ac : Agent × Counters)
    (h : ac.1.state = 3) (hd : distance cur ac.1.dest > 1)
    (hnv : ¬ is_position_valid (cur.1 + (stepVec cur ac.1.dest 0.8).1)
        (cur.2 + (stepVec cur ac.1.dest 0.8).2)) :
    block3 angle cur ac =
      ({ ac.1 with pos :=
          (cur.1 + (rotApply angle (stepVec cur ac.1.dest 0.8)).1 * 0.8,
           cur.2 + (rotApply angle (stepVec cur ac.1.dest 0.8)).2 * 0.8) },
       ac.2) := by
  simp only [block3]
  rw [if_pos h, if_pos hd, if_neg hnv]

/-- Distance evaluation for the C4 input. -/
theorem dist_c4 : distance ((35.5 : ℝ), (0 : ℝ)) ((0 : ℝ), (0 : ℝ)) = 35.5 := by
  show Real.sqrt (((0 : ℝ) - 35.5) ^ 2 + ((0 : ℝ) - 0) ^ 2) = 35.5
  rw [show ((0 : ℝ) - 35.5) ^ 2 + ((0 : ℝ) - 0) ^ 2 = 35.5 ^ 2 by norm_num]
  exact Real.sqrt_sq (by norm_num)

/-- Step-vector evaluation for the C4 input. -/
theorem step_c4 :
    stepVec ((35.5 : ℝ), (0 : ℝ)) ((0 : ℝ), (0 : ℝ)) 0.8 = (-0.8, 0) := by
  unfold stepVec
  rw [dist_c4]
  norm_num

/-- The direct step of the C4 input lands inside the playing field. -/
theorem blocked_c4 :
    ¬ is_position_valid ((35.5 : ℝ) + (stepVec ((35.5 : ℝ), (0 : ℝ))
        ((0 : ℝ), (0 : ℝ)) 0.8).1)
      ((0 : ℝ) + (stepVec ((35.5 : ℝ), (0 : ℝ)) ((0 : ℝ), (0 : ℝ)) 0.8).2) := by
  rw [step_c4]
  norm_num [is_position_valid, is_position_allowed, is_inside_stadium,
    is_inside_field]

/-- Rotation by the draw 0 is the identity on the C4 step vector. -/
theorem rot_c4 :
    rotApply 0 (stepVec ((35.5 : ℝ), (0 : ℝ)) ((0 : ℝ), (0 : ℝ)) 0.8) =
      (-0.8, 0) := by
  rw [step_c4]
  unfold rotApply
  norm_num

/-- Claim C4 counterexample: an agent in state 3 at (35.5, 0) walking to
the seat destination (0, 0) has its direct step blocked by the field; the
fallback then moves it to (34.86, 0) with NO validity check, and that
point lies inside the playing field (not walkable).  The navigation update
thus moves an agent onto a non-walkable point. -/
theorem C4_counterexample :
    (agentStep 100 0 0
        ⟨3, (35.5, 0), (0, 0), "", (-55, 40), "NORTE_1", "GATE_NORTH", 200⟩
        (fun _ => 0)).1.pos = ((34.86 : ℝ), (0 : ℝ)) ∧
    ¬ is_position_valid 34.86 0 ∧
    ((34.86 : ℝ), (0 : ℝ)) ≠ ((35.5 : ℝ), (0 : ℝ)) := by
  have hd1 : distance ((35.5 : ℝ), (0 : ℝ)) ((0 : ℝ), (0 : ℝ)) > 1 := by
    rw [dist_c4]
    norm_num
  have hb3 := block3_fallback 0 ((35.5 : ℝ), (0 : ℝ))
    (⟨3, (35.5, 0), (0, 0), "", (-55, 40), "NORTE_1", "GATE_NORTH", 200⟩,
      fun _ => 0) rfl hd1 blocked_c4
  refine ⟨?_, ?_, ?_⟩
  · simp only [agentStep]
    rw [hb3,
        block4_skip _ _ _ _ (by simp),
        block5_skip _ _ (by simp),
        block7_skip _ _ (by simp),
        block8_skip _ _ (by simp),
        block10_skip _ _ (by simp),
        blockExit_skip _ _ _ (by simp),
        block11_skip _ _ (by simp)]
    show ((35.5 : ℝ) + (rotApply 0 (stepVec ((35.5 : ℝ), (0 : ℝ))
        ((0 : ℝ), (0 : ℝ)) 0.8)).1 * 0.8,
      (0 : ℝ) + (rotApply 0 (stepVec ((35.5 : ℝ), (0 : ℝ))
        ((0 : ℝ), (0 : ℝ)) 0.8)).2 * 0.8) = ((34.86 : ℝ), (0 : ℝ))
    rw [rot_c4]
    norm_num
  · norm_num [is_position_valid, is_position_allowed, is_inside_stadium,
      is_inside_field]
  · intro hpair
    have := congrArg Prod.fst hpair
    norm_num at this

/-- Claim C4 as amended: the movement attempt shared by the walking states
5, 7, 8, 10 and 11 either leaves the position unchanged or lands on a
point satisfying the walkability predicate; the unchecked random-rotation
fallback of state 3 (see the counterexample) is the one exception. -/
theorem C4_checked_moves (cur dest : ℝ × ℝ) (speed : ℝ) (pos : ℝ × ℝ) :
    tryStep cur dest speed pos = pos ∨
    is_position_valid (tryStep cur dest speed pos).1
      (tryStep cur dest speed pos).2 := by
  simp only [tryStep]
  split_ifs with h
  · right
    exact h
  · left
    rfl

end Dragao

namespace Dragao

/-- Distance evaluation for the C5 input (a 3-4-5 configuration). -/
theorem dist_c5 :
    distance ((2 : ℝ), (20.5 : ℝ)) ((-28 : ℝ), (-19.5 : ℝ)) = 50 := by
  show Real.sqrt ((((-28) : ℝ) - 2) ^ 2 + (((-19.5) : ℝ) - 20.5) ^ 2) = 50
  rw [show (((-28) : ℝ) - 2) ^ 2 + (((-19.5) : ℝ) - 20.5) ^ 2 = 50 ^ 2 by
    norm_num]
  exact Real.sqrt_sq (by norm_num)

/-- Step-vector evaluation for the C5 input. -/
theorem step_c5 :
    stepVec ((2 : ℝ), (20.5 : ℝ)) ((-28 : ℝ), (-19.5 : ℝ)) 0.7 =
      (-0.42, -0.56) := by
  unfold stepVec
  rw [dist_c5]
  norm_num

/-- The direct step of the C5 input lands inside the playing field. -/
theorem blocked_c5 :
    ¬ is_position_valid
      ((2 : ℝ) + (stepVec ((2 : ℝ), (20.5 : ℝ)) ((-28 : ℝ), (-19.5 : ℝ))
        0.7).1)
      ((20.5 : ℝ) + (stepVec ((2 : ℝ), (20.5 : ℝ)) ((-28 : ℝ), (-19.5 : ℝ))
        0.7).2) := by
  rw [step_c5]
  norm_num [is_position_valid, is_position_allowed, is_inside_stadium,
    is_inside_field]

/-- Claim C5 counterexample: an agent in state 5 at (2, 20.5), bound for
(-28, -19.5), has its direct step blocked (it would land at (1.58, 19.94),
inside the field), while the move along only the x-component of the step
would land at (1.58, 20.5), which IS walkable.  The claim requires the
axis-aligned slide to be attempted and taken; the code instead leaves the
agent exactly where it was.  No axis-slide and no orbital fallback exist
in the source. -/
theorem C5_counterexample :
    (agentStep 100 0 0
        ⟨5, (2, 20.5), (-28, -19.5), "BAR_OESTE", (-55, 40), "NORTE_1",
          "GATE_NORTH", 200⟩ (fun _ => 0)).1.pos = ((2 : ℝ), (20.5 : ℝ)) ∧
    stepVec ((2 : ℝ), (20.5 : ℝ)) ((-28 : ℝ), (-19.5 : ℝ)) 0.7 =
      (-0.42, -0.56) ∧
    ¬ is_position_valid ((2 : ℝ) + -0.42) ((20.5 : ℝ) + -0.56) ∧
    is_position_valid ((2 : ℝ) + -0.42) (20.5 : ℝ) ∧
    distance ((2 : ℝ), (20.5 : ℝ)) ((-28 : ℝ), (-19.5 : ℝ)) > 2 := by
  have hd2 : distance ((2 : ℝ), (20.5 : ℝ)) ((-28 : ℝ), (-19.5 : ℝ)) > 2 := by
    rw [dist_c5]
    norm_num
  have htr : tryStep ((2 : ℝ), (20.5 : ℝ)) ((-28 : ℝ), (-19.5 : ℝ)) 0.7
      ((2 : ℝ), (20.5 : ℝ)) = ((2 : ℝ), (20.5 : ℝ)) := by
    simp only [tryStep]
    rw [if_neg blocked_c5]
  have hb5 := block5_move ((2 : ℝ), (20.5 : ℝ))
    (⟨5, (2, 20.5), (-28, -19.5), "BAR_OESTE", (-55, 40), "NORTE_1",
      "GATE_NORTH", 200⟩, fun _ => 0) rfl hd2
  refine ⟨?_, step_c5, ?_, ?_, hd2⟩
  · simp only [agentStep]
    rw [block3_skip _ _ _ (by simp),
        block4_skip _ _ _ _ (by simp),
        hb5,
        block7_skip _ _ (by simp),
        block8_skip _ _ (by simp),
        block10_skip _ _ (by simp),
        blockExit_skip _ _ _ (by simp),
        block11_skip _ _ (by simp)]
    exact htr
  · have := blocked_c5
    rw [step_c5] at this
    exact this
  · norm_num [is_position_valid, is_position_allowed, is_inside_stadium,
      is_inside_field]

/-- Claim C5 as amended: when the direct step of the movement attempt used
by the walking states 5, 7, 8, 10 and 11 is blocked by the walkability
predicate, the agent simply keeps its position for this tick: no
axis-aligned slide and no orbital fallback are attempted (state 3 instead
takes an unchecked randomly rotated step, see claim C4). -/
theorem C5_blocked_stalls (cur dest : ℝ × ℝ) (speed : ℝ) (pos : ℝ × ℝ)
    (h : ¬ is_position_valid (cur.1 + (stepVec cur dest speed).1)
        (cur.2 + (stepVec cur dest speed).2)) :
    tryStep cur dest speed pos = pos := by
  simp only [tryStep]
  rw [if_neg h]

/-- Witness for C5 as amended at the blocked C5 configuration. -/
theorem C5_blocked_stalls_witness :
    ¬ is_position_valid
      ((2 : ℝ) + (stepVec ((2 : ℝ), (20.5 : ℝ)) ((-28 : ℝ), (-19.5 : ℝ))
        0.7).1)
      ((20.5 : ℝ) + (stepVec ((2 : ℝ), (20.5 : ℝ)) ((-28 : ℝ), (-19.5 : ℝ))
        0.7).2) ∧
    tryStep ((2 : ℝ), (20.5 : ℝ)) ((-28 : ℝ), (-19.5 : ℝ)) 0.7
      ((2 : ℝ), (20.5 : ℝ)) = ((2 : ℝ), (20.5 : ℝ)) :=
  ⟨blocked_c5, C5_blocked_stalls _ _ _ _ blocked_c5⟩

end Dragao

namespace Dragao

/-! ## Claim C8: the exit destination -/

/-- Evaluation of the per-agent step for a seated agent after the
match-end boundary: the exit-trigger block fires and sets the destination
to the gate nearest the agent's current position; the state-11 block that
runs in the same iteration does not touch these fields. -/
theorem exit_eval (t : ℚ) (angle coin : ℝ) (a : Agent) (c : Counters)
    (h4 : a.state = 4) (ht : t > TIMELINE_game_end) :
    (agentStep t angle coin a c).1.currentDest = (get_nearest_gate a.pos).1 ∧
    (agentStep t angle coin a c).1.dest = (get_nearest_gate a.pos).2 ∧
    (agentStep t angle coin a c).1.entryGate = a.entryGate := by
  have hnotlt : ¬ t < TIMELINE_game_resume := by
    unfold TIMELINE_game_resume
    unfold TIMELINE_game_end at ht
    intro hlt
    linarith
  simp only [agentStep]
  rw [block3_skip _ _ _ (by simp [h4]),
      block4_skip_time _ _ _ _ hnotlt,
      block5_skip _ _ (by simp [h4]),
      block7_skip _ _ (by simp [h4]),
      block8_skip _ _ (by simp [h4]),
      block10_skip _ _ (by simp [h4]),
      blockExit_fire _ _ _ ht (by simpa using h4)]
  refine ⟨?_, ?_, ?_⟩
  · rw [(block11_preserves _ _).1]
  · rw [(block11_preserves _ _).2.1]
  · rw [(block11_preserves _ _).2.2.1]

/-- Nearest gate to the seat position (-55, 40) in zone NORTE_1: it is
GATE_WEST, not GATE_NORTH (squared distances 1625 versus 3089). -/
theorem nearest_gate_norte1 :
    get_nearest_gate ((-55 : ℝ), (40 : ℝ)) = ("GATE_WEST", (-60, 0)) := by
  have eN : distance ((-55 : ℝ), (40 : ℝ)) ((0 : ℝ), (48 : ℝ)) =
      Real.sqrt 3089 := by
    show Real.sqrt (((0 : ℝ) - (-55)) ^ 2 + ((48 : ℝ) - 40) ^ 2) =
      Real.sqrt 3089
    norm_num
  have eS : distance ((-55 : ℝ), (40 : ℝ)) ((0 : ℝ), (-48 : ℝ)) =
      Real.sqrt 10769 := by
    show Real.sqrt (((0 : ℝ) - (-55)) ^ 2 + (((-48) : ℝ) - 40) ^ 2) =
      Real.sqrt 10769
    norm_num
  have eE : distance ((-55 : ℝ), (40 : ℝ)) ((60 : ℝ), (0 : ℝ)) =
      Real.sqrt 14825 := by
    show Real.sqrt (((60 : ℝ) - (-55)) ^ 2 + ((0 : ℝ) - 40) ^ 2) =
      Real.sqrt 14825
    norm_num
  have eW : distance ((-55 : ℝ), (40 : ℝ)) ((-60 : ℝ), (0 : ℝ)) =
      Real.sqrt 1625 := by
    show Real.sqrt ((((-60) : ℝ) - (-55)) ^ 2 + ((0 : ℝ) - 40) ^ 2) =
      Real.sqrt 1625
    norm_num
  have hS : ¬ distance ((-55 : ℝ), (40 : ℝ)) ((0 : ℝ), (-48 : ℝ)) <
      distance ((-55 : ℝ), (40 : ℝ)) ((0 : ℝ), (48 : ℝ)) := by
    rw [eS, eN]
    exact not_lt.mpr (Real.sqrt_le_sqrt (by norm_num))
  have hE : ¬ distance ((-55 : ℝ), (40 : ℝ)) ((60 : ℝ), (0 : ℝ)) <
      distance ((-55 : ℝ), (40 : ℝ)) ((0 : ℝ), (48 : ℝ)) := by
    rw [eE, eN]
    exact not_lt.mpr (Real.sqrt_le_sqrt (by norm_num))
  have hW : distance ((-55 : ℝ), (40 : ℝ)) ((-60 : ℝ), (0 : ℝ)) <
      distance ((-55 : ℝ), (40 : ℝ)) ((0 : ℝ), (48 : ℝ)) := by
    rw [eW, eN]
    exact Real.sqrt_lt_sqrt (by norm_num) (by norm_num)
  unfold get_nearest_gate
  simp only [argminBy]
  rw [if_neg hS, if_neg hE, if_pos hW]

/-- Claim C8 counterexample: a seated agent at the NORTE_1 seat (-55, 40)
whose recorded entry gate is GATE_NORTH initiates exit at time 281 (past
the match end); its exit destination is set to GATE_WEST at (-60, 0) —
the gate nearest its seat — and not to its own entry gate. -/
theorem C8_counterexample :
    (agentStep 281 0 0
        ⟨4, (-55, 40), (-55, 40), "", (-55, 40), "NORTE_1", "GATE_NORTH",
          200⟩ (fun _ => 0)).1.currentDest = "GATE_WEST" ∧
    (agentStep 281 0 0
        ⟨4, (-55, 40), (-55, 40), "", (-55, 40), "NORTE_1", "GATE_NORTH",
          200⟩ (fun _ => 0)).1.dest = ((-60 : ℝ), (0 : ℝ)) ∧
    (⟨4, (-55, 40), (-55, 40), "", (-55, 40), "NORTE_1", "GATE_NORTH",
      200⟩ : Agent).entryGate = "GATE_NORTH" ∧
    ("GATE_WEST" : String) ≠ "GATE_NORTH" := by
  have h := exit_eval 281 0 0
    ⟨4, (-55, 40), (-55, 40), "", (-55, 40), "NORTE_1", "GATE_NORTH", 200⟩
    (fun _ => 0) rfl
    (by unfold TIMELINE_game_end; norm_num)
  refine ⟨?_, ?_, rfl, by decide⟩
  · rw [h.1]
    show (get_nearest_gate ((-55 : ℝ), (40 : ℝ))).1 = "GATE_WEST"
    rw [nearest_gate_norte1]
  · rw [h.2.1]
    show (get_nearest_gate ((-55 : ℝ), (40 : ℝ))).2 = ((-60 : ℝ), (0 : ℝ))
    rw [nearest_gate_norte1]

/-- Claim C8 as amended: a seated agent initiating exit after the
match-end boundary gets as its exit destination the gate NEAREST its
current position (the simulator has a single floor and no stairs); this
can be a different gate from the recorded entry gate, as the
counterexample shows. -/
theorem C8_exit_nearest_gate (t : ℚ) (angle coin : ℝ) (a : Agent)
    (c : Counters) (h4 : a.state = 4) (ht : t > TIMELINE_game_end) :
    (agentStep t angle coin a c).1.currentDest =
      (get_nearest_gate a.pos).1 ∧
    (agentStep t angle coin a c).1.dest = (get_nearest_gate a.pos).2 :=
  ⟨(exit_eval t angle coin a c h4 ht).1,
   (exit_eval t angle coin a c h4 ht).2.1⟩

/-- Witness for C8 as amended at the NORTE_1 seated agent and time 281. -/
theorem C8_exit_nearest_gate_witness :
    (⟨4, (-55, 40), (-55, 40), "", (-55, 40), "NORTE_1", "GATE_NORTH",
      200⟩ : Agent).state = 4 ∧
    (281 : ℚ) > TIMELINE_game_end ∧
    ((agentStep 281 0 0
        ⟨4, (-55, 40), (-55, 40), "", (-55, 40), "NORTE_1", "GATE_NORTH",
          200⟩ (fun _ => 0)).1.currentDest =
      (get_nearest_gate ((-55 : ℝ), (40 : ℝ))).1 ∧
     (agentStep 281 0 0
        ⟨4, (-55, 40), (-55, 40), "", (-55, 40), "NORTE_1", "GATE_NORTH",
          200⟩ (fun _ => 0)).1.dest =
      (get_nearest_gate ((-55 : ℝ), (40 : ℝ))).2) := by
  have ht : (281 : ℚ) > TIMELINE_game_end := by
    unfold TIMELINE_game_end
    norm_num
  exact ⟨rfl, ht, C8_exit_nearest_gate 281 0 0 _ _ rfl ht⟩

end Dragao

namespace QueueMgr

/-! ## Claim C3: FIFO admission for the spec-modelled queue manager -/

/-- One manager operation appends to the admitted-from-queue log only at
the end, and preserves the sequence admitted-so-far ++ current-queue up to
appending newly queued ids at its end. -/
theorem applyOp_adm_grows (s : Facility × List ℕ) (op : FOp) :
    ∃ app newadm, (applyOp s op).2 = s.2 ++ newadm ∧
      (applyOp s op).2 ++ (applyOp s op).1.queue =
        (s.2 ++ s.1.queue) ++ app := by
  cases op with
  | request agentId =>
      unfold applyOp requestService
      by_cases h : s.1.occupancy < s.1.capacity
      · exact ⟨[], [], by simp [h], by simp [h]⟩
      · exact ⟨[agentId], [], by simp [h], by simp [h]⟩
  | tick =>
      unfold applyOp tickFacility
      cases hq : s.1.queue with
      | nil => exact ⟨[], [], by simp [hq], by simp [hq]⟩
      | cons x rest =>
          by_cases h : s.1.occupancy < s.1.capacity
          · exact ⟨[], [x], by simp [hq, h], by simp [hq, h]⟩
          · exact ⟨[], [], by simp [hq, h], by simp [hq, h]⟩
  | release =>
      unfold applyOp releaseService
      exact ⟨[], [], by simp, by simp⟩

/-- Folding any sequence of manager operations only ever appends to the
admitted log, and preserves admitted ++ queue up to a suffix of newly
queued ids. -/
theorem foldl_adm_grows (ops : List FOp) :
    ∀ s : Facility × List ℕ,
      ∃ app newadm, (ops.foldl applyOp s).2 = s.2 ++ newadm ∧
        (ops.foldl applyOp s).2 ++ (ops.foldl applyOp s).1.queue =
          (s.2 ++ s.1.queue) ++ app := by
  induction ops with
  | nil =>
      intro s
      exact ⟨[], [], by simp, by simp⟩
  | cons op ops ih =>
      intro s
      obtain ⟨app0, na0, h1, h2⟩ := applyOp_adm_grows s op
      obtain ⟨app1, na1, h3, h4⟩ := ih (applyOp s op)
      refine ⟨app0 ++ app1, na0 ++ na1, ?_, ?_⟩
      · rw [List.foldl_cons, h3, h1, List.append_assoc]
      · rw [List.foldl_cons, h4, h2, List.append_assoc]

/-- Taking a prefix of a duplicate-free list that still contains the later
element B also keeps the earlier element A and their relative order. -/
theorem take_keeps_before (l1 l2 l3 : List ℕ) (A B : ℕ) (n : ℕ)
    (hnd : (l1 ++ A :: l2 ++ B :: l3).Nodup)
    (hB : B ∈ (l1 ++ A :: l2 ++ B :: l3).take n) :
    ∃ m3, (l1 ++ A :: l2 ++ B :: l3).take n = l1 ++ A :: l2 ++ B :: m3 := by
  have hsplit : l1 ++ A :: l2 ++ B :: l3 = ((l1 ++ A :: l2) ++ [B]) ++ l3 := by
    simp
  have hnotmem : B ∉ l1 ++ A :: l2 := by
    rw [hsplit] at hnd
    have h1 : ((l1 ++ A :: l2) ++ [B]).Nodup := (List.nodup_append.mp hnd).1
    have h2 := (List.nodup_append.mp h1).2.2
    intro hmem
    exact h2 hmem (List.mem_singleton_self B)
  have hlenP : ((l1 ++ A :: l2) ++ [B]).length = (l1 ++ A :: l2).length + 1 := by
    simp
    omega
  have hlen : ((l1 ++ A :: l2) ++ [B]).length ≤ n := by
    by_contra hn
    push_neg at hn
    apply hnotmem
    have h0 : (((l1 ++ A :: l2) ++ [B]) ++ l3).take n =
        ((l1 ++ A :: l2) ++ [B]).take n := by
      rw [List.take_append_eq_append_take,
        show n - ((l1 ++ A :: l2) ++ [B]).length = 0 by omega]
      simp
    have h1 : ((l1 ++ A :: l2) ++ [B]).take n = (l1 ++ A :: l2).take n := by
      rw [List.take_append_eq_append_take,
        show n - (l1 ++ A :: l2).length = 0 by omega]
      simp
    rw [hsplit, h0, h1] at hB
    exact List.take_subset n (l1 ++ A :: l2) hB
  refine ⟨l3.take (n - ((l1 ++ A :: l2) ++ [B]).length), ?_⟩
  rw [hsplit, List.take_append_eq_append_take,
    List.take_of_length_le hlen]
  simp

/-- Claim C3: the queue is FIFO.  For any facility state and any sequence
of manager operations, if agent A stands strictly before agent B in the
facility's queue (A entered strictly earlier, since `requestService`
appends at the tail) and the ids in play are pairwise distinct, then
whenever B has been admitted from the queue, A was admitted before it:
the admitted-from-queue log lists A strictly before B. -/
theorem C3_queue_fifo (f : Facility) (ops : List FOp) (A B : ℕ)
    (l1 l2 l3 : List ℕ)
    (hq : f.queue = l1 ++ A :: l2 ++ B :: l3)
    (hnd : ((runOps f ops).2 ++ (runOps f ops).1.queue).Nodup)
    (hB : B ∈ (runOps f ops).2) :
    ∃ m1 m2 m3, (runOps f ops).2 = m1 ++ A :: m2 ++ B :: m3 := by
  obtain ⟨app, newadm, h1, h2⟩ := foldl_adm_grows ops (f, [])
  have hs : (runOps f ops).2 ++ (runOps f ops).1.queue =
      l1 ++ A :: l2 ++ B :: (l3 ++ app) := by
    show (ops.foldl applyOp (f, [])).2 ++
      (ops.foldl applyOp (f, [])).1.queue = _
    rw [h2]
    simp [hq]
  have htake : (runOps f ops).2 =
      (l1 ++ A :: l2 ++ B :: (l3 ++ app)).take (runOps f ops).2.length := by
    rw [← hs]
    exact (List.take_left _ _).symm
  have hnd2 : (l1 ++ A :: l2 ++ B :: (l3 ++ app)).Nodup := by
    rw [← hs]
    exact hnd
  have hB2 : B ∈ (l1 ++ A :: l2 ++ B :: (l3 ++ app)).take
      (runOps f ops).2.length := by
    rw [← htake]
    exact hB
  obtain ⟨m3, hm⟩ := take_keeps_before l1 l2 (l3 ++ app) A B _ hnd2 hB2
  exact ⟨l1, l2, m3, by rw [htake, hm]⟩

/-- Witness for C3: a facility with capacity 1 whose queue holds agents
1 then 2; after tick/release cycles both are admitted, in queue order. -/
theorem C3_queue_fifo_witness :
    ∃ m1 m2 m3,
      (runOps ⟨1, 1, [1, 2]⟩
        [FOp.release, FOp.tick, FOp.release, FOp.tick]).2 =
      m1 ++ 1 :: m2 ++ 2 :: m3 :=
  C3_queue_fifo ⟨1, 1, [1, 2]⟩
    [FOp.release, FOp.tick, FOp.release, FOp.tick] 1 2 [] [] []
    rfl (by decide) (by decide)

end QueueMgr
